import Mathlib

/-!
Shallow embedding of the enrichment-pipeline core of the `ai_news_curator`
repository: the data model (`src/src/ai_news_curator/models.py`), the
classifier (`pipeline/classify.py`), the impact scorer (`pipeline/impact.py`),
the on-disk result cache (`cache.py`), the greedy online clusterer
(`src/src/pipeline/deduplicate.py`) and the cluster summarizer
(`src/src/pipeline/summarize.py`).

Python floats that only carry model-reported numbers are modelled as `ℚ`;
datetimes are carried as their serialized ISO strings (the cache writes them
with `default=str`); the nondeterministic outputs of external collaborators
(LLM responses, embeddings, uuid generation, task completion order) are
explicit parameters.
-/

namespace AINews

/-- `RawNewsItem` from `models.py`: raw item fetched from RSS feeds.
`url` and `published_at` are optional; `published_at` is kept as its
serialized string form. -/
structure RawNewsItem where
  id : String
  title : String
  url : Option String
  source : String
  published_at : Option String
  content : String
deriving DecidableEq, Repr, Inhabited

/-- `ClassifiedNewsItem` from `models.py`: `RawNewsItem` plus classification
fields. -/
structure ClassifiedNewsItem extends RawNewsItem where
  category : String
  classification_confidence : ℚ
  classification_method : String
deriving DecidableEq, Repr, Inhabited

/-- `ScoredNewsItem` from `models.py`: `ClassifiedNewsItem` plus impact
fields. -/
structure ScoredNewsItem extends ClassifiedNewsItem where
  impact_score : ℤ
  impact_reason : String
  impact_dimensions : List String
deriving DecidableEq, Repr, Inhabited

/-- `ClusteredItem` from `models.py`: a cluster of similar news items. -/
structure ClusteredItem where
  cluster_id : String
  representative : ScoredNewsItem
  members : List ScoredNewsItem
deriving DecidableEq, Repr, Inhabited

/-- `SummarizedCluster` from `models.py`: final summarized cluster. -/
structure SummarizedCluster where
  cluster_id : String
  category : String
  impact_score : ℤ
  title : String
  summary : String
  impact_reason : String
  sources : List String
  raw_ids : List String
deriving DecidableEq, Repr, Inhabited

/-! ## Classifier (`pipeline/classify.py`) -/

/-- The fixed category list `CATEGORIES` from `classify.py`. -/
def CATEGORIES : List String :=
  ["AI Models", "AI Infrastructure & Hardware", "AI Research",
   "AI Policy & Regulation", "Developer Tools & Platforms",
   "Tech Business & Strategy", "Other"]

/-- The fields the classifier reads out of the LLM JSON response:
`response.get("category", "Other")` and `response.get("confidence", 0.5)`.
`none` models an absent key. -/
structure ClassifyResponse where
  category : Option String
  confidence : Option ℚ
deriving DecidableEq, Repr

/-- `_classify_single_item` from `classify.py`.  `cache_hit` is the result of
`cache.get_classified` (or `none` when no cache is given or it misses);
`response` is the outcome of the guarded block: `.ok r` when the LLM call and
field conversions succeed, `.error e` when any exception is raised (network
failure, JSON parse failure, `float()` conversion failure, ...). -/
def classify_single_item (cache_hit : Option ClassifiedNewsItem)
    (response : Except String ClassifyResponse) (item : RawNewsItem) :
    ClassifiedNewsItem :=
  match cache_hit with
  | some cached => cached
  | none =>
    match response with
    | .ok r =>
      let category := r.category.getD "Other"
      let confidence := r.confidence.getD (1/2)
      let category := if category ∈ CATEGORIES then category else "Other"
      { toRawNewsItem := item
        category := category
        classification_confidence := confidence
        classification_method := "zero-shot" }
    | .error _ =>
      { toRawNewsItem := item
        category := "Other"
        classification_confidence := 0
        classification_method := "zero-shot" }

/-- `_classify_single_item_few_shot` from `classify.py`: same as the zero-shot
path but with no cache lookup and `classification_method="few-shot"`. -/
def classify_single_item_few_shot
    (response : Except String ClassifyResponse) (item : RawNewsItem) :
    ClassifiedNewsItem :=
  match response with
  | .ok r =>
    let category := r.category.getD "Other"
    let confidence := r.confidence.getD (1/2)
    let category := if category ∈ CATEGORIES then category else "Other"
    { toRawNewsItem := item
      category := category
      classification_confidence := confidence
      classification_method := "few-shot" }
  | .error _ =>
    { toRawNewsItem := item
      category := "Other"
      classification_confidence := 0
      classification_method := "few-shot" }

/-! ## Impact scorer (`pipeline/impact.py`) -/

/-- The fields the scorer reads out of the LLM JSON response.
`impact_score`: `none` models an absent key (default 3).
`impact_dimensions`: `none` models an absent key (default `[]`),
`some none` a present value that is not a list (coerced to `[]`),
`some (some l)` a present list `l`.
`impact_reason`: `none` models an absent key (default `""`). -/
structure ScoreResponse where
  impact_score : Option ℤ
  impact_dimensions : Option (Option (List String))
  impact_reason : Option String
deriving DecidableEq, Repr

/-- `_score_single_item` from `impact.py`.  `cache_hit` is the result of
`cache.get_scored`; `response` is the outcome of the guarded block (`.error`
when the LLM call or the `int()` conversion raises). -/
def score_single_item (cache_hit : Option ScoredNewsItem)
    (response : Except String ScoreResponse) (item : ClassifiedNewsItem) :
    ScoredNewsItem :=
  match cache_hit with
  | some cached => cached
  | none =>
    match response with
    | .ok r =>
      let raw := r.impact_score.getD 3
      let dims := match r.impact_dimensions with
        | none => []
        | some none => []
        | some (some l) => l
      let reason := r.impact_reason.getD ""
      { toClassifiedNewsItem := item
        impact_score := max 1 (min 5 raw)
        impact_reason := reason
        impact_dimensions := dims }
    | .error _ =>
      { toClassifiedNewsItem := item
        impact_score := 3
        impact_reason := "Error during scoring"
        impact_dimensions := [] }

/-! ## Online clusterer (`src/src/pipeline/deduplicate.py`)

External collaborators are explicit parameters: `E` is the embedding type
(the output of `embed_texts`), `sim` is cosine similarity, `uuid` supplies the
fresh `uuid.uuid4()` string for the `k`-th created cluster. -/

/-- `np.argmax` over the similarity row: index of the first occurrence of the
maximum value (ties keep the earlier index).  `argmaxAux xs i best bv` scans
`xs` whose head sits at index `i`, with current best index `best` holding
value `bv`. -/
def argmaxAux : List ℚ → Nat → Nat → ℚ → Nat
  | [], _, best, _ => best
  | x :: xs, i, best, bv =>
    if bv < x then argmaxAux xs (i + 1) i x else argmaxAux xs (i + 1) best bv

/-- `np.argmax` of a list of similarities (0 on the empty list, which the
source never hits: the similarity row is built from a nonempty centroid
list). -/
def argmax : List ℚ → Nat
  | [] => 0
  | x :: xs => argmaxAux xs 1 0 x

/-- A fresh singleton cluster: `ClusteredItem(cluster_id=..., representative=item,
members=[item])`. -/
def newCluster (cid : String) (item : ScoredNewsItem) : ClusteredItem :=
  { cluster_id := cid, representative := item, members := [item] }

/-- The cluster after `cluster.members.append(item)` and the conditional
representative promotion (`if item.impact_score > cluster.representative.impact_score`). -/
def joinedCluster (item : ScoredNewsItem) (c : ClusteredItem) : ClusteredItem :=
  let c' := { c with members := c.members ++ [item] }
  if c.representative.impact_score < item.impact_score then
    { c' with representative := item }
  else c'

/-- The cluster's centroid after the conditional replacement
(`cluster_embeddings[max_similarity_idx] = embedding` fires exactly when the
representative is promoted). -/
def joinedCentroid {E : Type} (item : ScoredNewsItem) (e : E)
    (c : ClusteredItem) (cent : E) : E :=
  if c.representative.impact_score < item.impact_score then e else cent

/-- The similarity row `cosine_similarity(embedding.reshape(1,-1), cluster_embeddings)[0]`:
the item's similarity against every existing centroid, in centroid order. -/
def simRow {E : Type} (sim : E → E → ℚ) (e : E) (centroids : List E) : List ℚ :=
  centroids.map (fun c => sim e c)

/-- The loop body of `cluster_items`: one item (with its embedding `e`)
processed against the current state `(clusters, cluster_embeddings)`. -/
def clusterStep {E : Type} [Inhabited E] (sim : E → E → ℚ) (θ : ℚ) (uuid : Nat → String)
    (st : List ClusteredItem × List E) (item : ScoredNewsItem) (e : E) :
    List ClusteredItem × List E :=
  if st.1.isEmpty then
    (st.1 ++ [newCluster (uuid st.1.length) item], st.2 ++ [e])
  else
    let sims := simRow sim e st.2
    let j := argmax sims
    let maxSim := sims.getD j 0
    if θ ≤ maxSim then
      (st.1.set j (joinedCluster item (st.1.getD j default)),
       st.2.set j (joinedCentroid item e (st.1.getD j default) (st.2.getD j default)))
    else
      (st.1 ++ [newCluster (uuid st.1.length) item], st.2 ++ [e])

/-- The clustering pass folded from an arbitrary starting state. -/
def clusterRun {E : Type} [Inhabited E] (sim : E → E → ℚ) (θ : ℚ) (uuid : Nat → String)
    (st : List ClusteredItem × List E) (pairs : List (ScoredNewsItem × E)) :
    List ClusteredItem × List E :=
  pairs.foldl (fun s p => clusterStep sim θ uuid s p.1 p.2) st

/-- `cluster_items` from `deduplicate.py`.  `embeds` is the batched
`embed_texts` output, one embedding per item in order (the batching into
chunks of 100 only splits the external call and is identity on the
concatenated result). -/
def cluster_items {E : Type} [Inhabited E] (sim : E → E → ℚ) (θ : ℚ) (uuid : Nat → String)
    (items : List ScoredNewsItem) (embeds : List E) : List ClusteredItem :=
  (clusterRun sim θ uuid ([], []) (items.zip embeds)).1

/-! ## Result cache (`cache.py`)

The cache directory is modelled as a map from file key to file content.  A
stored file is either structurally valid JSON (a `Json` value) or `corrupt`
(text that `json.load` rejects).  Reading constructs the pydantic entity from
the parsed JSON; any failure along the way is caught and turned into `none`. -/

/-- The JSON values that appear in cache records. -/
inductive Json where
  | null
  | str (s : String)
  | num (q : ℚ)
  | arr (xs : List Json)
  | obj (fields : List (String × Json))

/-- A cache file's content: either parseable JSON or text `json.load`
rejects. -/
inductive CacheFile where
  | corrupt
  | json (j : Json)

/-- The cache directory: cache key to file content, `none` when
`cache_file.exists()` is false. -/
def CacheStore : Type := String → Option CacheFile

/-- `NewsCache._get_cache_key`.  The source hashes
`f"{item_id}:{operation}:{date_str}"` with MD5; the hash is modelled as the
identity on that content string (any deterministic function of the triple
yields the same get/save behaviour). -/
def cacheKey (item_id operation date_str : String) : String :=
  item_id ++ ":" ++ operation ++ ":" ++ date_str

/-- Serialization of an optional string field (`None` → JSON `null`),
as produced by `model_dump(mode="json")`. -/
def encodeOptStr : Option String → Json
  | none => .null
  | some s => .str s

/-- pydantic validation of a required string field. -/
def decodeStr : Json → Option String
  | .str s => some s
  | _ => none

/-- pydantic validation of an optional string field. -/
def decodeOptStr : Json → Option (Option String)
  | .null => some none
  | .str s => some (some s)
  | _ => none

/-- pydantic validation of a required number field. -/
def decodeNum : Json → Option ℚ
  | .num q => some q
  | _ => none

/-- Key lookup in a parsed JSON object (first occurrence wins, as in a
Python dict built from unique keys). -/
def jLookup (fields : List (String × Json)) (k : String) : Option Json :=
  (fields.find? (fun p => p.1 == k)).map (fun p => p.2)

/-- pydantic validation of a `List[str]` field: every element must be a
string. -/
def decodeStrList : List Json → Option (List String)
  | [] => some []
  | j :: js => do
    let s ← decodeStr j
    let rest ← decodeStrList js
    some (s :: rest)

/-- `json.dump(item.model_dump(mode="json"), ...)` for a
`ClassifiedNewsItem`. -/
def encodeClassified (it : ClassifiedNewsItem) : Json :=
  .obj [("id", .str it.id), ("title", .str it.title), ("url", encodeOptStr it.url),
        ("source", .str it.source), ("published_at", encodeOptStr it.published_at),
        ("content", .str it.content), ("category", .str it.category),
        ("classification_confidence", .num it.classification_confidence),
        ("classification_method", .str it.classification_method)]

/-- `ClassifiedNewsItem(**data)`: construct the entity from the parsed JSON
record by field lookup (pydantic ignores unknown keys and raises on missing
or ill-typed ones); `none` when validation raises (the `except` path of
`get_classified`). -/
def decodeClassified : Json → Option ClassifiedNewsItem
  | .obj fs => do
    let id ← jLookup fs "id" >>= decodeStr
    let title ← jLookup fs "title" >>= decodeStr
    let url ← jLookup fs "url" >>= decodeOptStr
    let source ← jLookup fs "source" >>= decodeStr
    let published_at ← jLookup fs "published_at" >>= decodeOptStr
    let content ← jLookup fs "content" >>= decodeStr
    let category ← jLookup fs "category" >>= decodeStr
    let confidence ← jLookup fs "classification_confidence" >>= decodeNum
    let method ← jLookup fs "classification_method" >>= decodeStr
    some { id := id, title := title, url := url, source := source,
           published_at := published_at, content := content, category := category,
           classification_confidence := confidence, classification_method := method }
  | _ => none

/-- `json.dump(item.model_dump(mode="json"), ...)` for a `ScoredNewsItem`. -/
def encodeScored (it : ScoredNewsItem) : Json :=
  .obj [("id", .str it.id), ("title", .str it.title), ("url", encodeOptStr it.url),
        ("source", .str it.source), ("published_at", encodeOptStr it.published_at),
        ("content", .str it.content), ("category", .str it.category),
        ("classification_confidence", .num it.classification_confidence),
        ("classification_method", .str it.classification_method),
        ("impact_score", .num it.impact_score),
        ("impact_reason", .str it.impact_reason),
        ("impact_dimensions", .arr (it.impact_dimensions.map .str))]

/-- `ScoredNewsItem(**data)`: construct the entity from the parsed JSON
record by field lookup; the `impact_score` number must be integral (pydantic
`int` validation); `none` when validation raises (the `except` path of
`get_scored`). -/
def decodeScored : Json → Option ScoredNewsItem
  | .obj fs => do
    let id ← jLookup fs "id" >>= decodeStr
    let title ← jLookup fs "title" >>= decodeStr
    let url ← jLookup fs "url" >>= decodeOptStr
    let source ← jLookup fs "source" >>= decodeStr
    let published_at ← jLookup fs "published_at" >>= decodeOptStr
    let content ← jLookup fs "content" >>= decodeStr
    let category ← jLookup fs "category" >>= decodeStr
    let confidence ← jLookup fs "classification_confidence" >>= decodeNum
    let method ← jLookup fs "classification_method" >>= decodeStr
    let score ← jLookup fs "impact_score" >>= decodeNum
    let reason ← jLookup fs "impact_reason" >>= decodeStr
    let dims ← jLookup fs "impact_dimensions" >>= fun j =>
      match j with
      | .arr xs => decodeStrList xs
      | _ => none
    if score.den = 1 then
      some { id := id, title := title, url := url, source := source,
             published_at := published_at, content := content, category := category,
             classification_confidence := confidence, classification_method := method,
             impact_score := score.num, impact_reason := reason,
             impact_dimensions := dims }
    else none
  | _ => none

/-- `NewsCache.get_classified`: missing file → `None`; unparseable file
(`json.load` raises) → `None`; parsed record that pydantic rejects → `None`;
otherwise the cached entity. -/
def get_classified (store : CacheStore) (item_id : String) (date_str : String) :
    Option ClassifiedNewsItem :=
  match store (cacheKey item_id "classify" date_str) with
  | none => none
  | some .corrupt => none
  | some (.json j) => decodeClassified j

/-- `NewsCache.save_classified`: write the serialized record under the item's
key.  `write_ok = false` models an `open`/`json.dump` failure, which is logged
and swallowed, leaving the store unchanged. -/
def save_classified (store : CacheStore) (item : ClassifiedNewsItem)
    (date_str : String) (write_ok : Bool) : CacheStore :=
  if write_ok then
    fun k => if k = cacheKey item.id "classify" date_str then
      some (.json (encodeClassified item)) else store k
  else store

/-- `NewsCache.get_scored`: same shape as `get_classified` with operation
`"score"`. -/
def get_scored (store : CacheStore) (item_id : String) (date_str : String) :
    Option ScoredNewsItem :=
  match store (cacheKey item_id "score" date_str) with
  | none => none
  | some .corrupt => none
  | some (.json j) => decodeScored j

/-- `NewsCache.save_scored`: same shape as `save_classified` with operation
`"score"`. -/
def save_scored (store : CacheStore) (item : ScoredNewsItem)
    (date_str : String) (write_ok : Bool) : CacheStore :=
  if write_ok then
    fun k => if k = cacheKey item.id "score" date_str then
      some (.json (encodeScored item)) else store k
  else store

/-! ## Bounded concurrent mapper (`asyncio.gather` over per-item tasks)

`classify_zero_shot_async`, `score_impact_async` and
`summarize_clusters_async` all build one task per input (index `i` transforms
input `i`), run them under a semaphore, and collect them with
`asyncio.gather`, which delivers results by task index regardless of
completion order.  The execution is modelled by an explicit completion order:
a result slot array, initially empty, in which each completing task writes its
own result at its own index. -/

/-- Run the per-item tasks of one stage under completion order `order`:
task `i` computes `f` of input `i` and stores the result in slot `i`; indices
outside the input range have no task and change nothing. -/
def runTasks {α β : Type} (f : α → β) (xs : List α) (order : List Nat) :
    List (Option β) :=
  order.foldl
    (fun slots i =>
      match xs[i]? with
      | some x => slots.set i (some (f x))
      | none => slots)
    (xs.map fun _ => none)

/-! ## Cluster summarizer (`src/src/pipeline/summarize.py`) -/

/-- The fields the summarizer reads out of the LLM JSON response:
`response.get("title", representative.title)`, `response.get("summary", "")`,
`response.get("responsible_ai_notes", "")`.  `none` models an absent key. -/
structure SummaryResponse where
  title : Option String
  summary : Option String
  responsible_ai_notes : Option String
deriving DecidableEq, Repr

/-- The deduplicated source URL list `list(set(sources))` built from members
that carry a URL (`if member.url`).  Python's `set` iterates in unspecified
order; the model uses `List.dedup`, and the theorems about it state only
order-independent facts (no duplicates, same membership). -/
def memberSources (members : List ScoredNewsItem) : List String :=
  (members.filterMap (fun m => m.url)).dedup

/-- `raw_ids`: the member ids in original member order. -/
def memberRawIds (members : List ScoredNewsItem) : List String :=
  members.map (fun m => m.id)

/-- `_summarize_single_cluster` from `summarize.py`.  `response` is the
outcome of the guarded block: `.ok r` when the LLM call succeeds, `.error e`
(carrying `str(e)`) when any exception is raised. -/
def summarize_single_cluster (cluster : ClusteredItem)
    (response : Except String SummaryResponse) : SummarizedCluster :=
  match response with
  | .ok r =>
    let title := r.title.getD cluster.representative.title
    let summary := r.summary.getD ""
    let notes := r.responsible_ai_notes.getD ""
    let impact_reason :=
      if notes ≠ "" then
        cluster.representative.impact_reason ++ "\n\nResponsible AI Notes: " ++ notes
      else cluster.representative.impact_reason
    { cluster_id := cluster.cluster_id
      category := cluster.representative.category
      impact_score := cluster.representative.impact_score
      title := title
      summary := summary
      impact_reason := impact_reason
      sources := memberSources cluster.members
      raw_ids := memberRawIds cluster.members }
  | .error e =>
    { cluster_id := cluster.cluster_id
      category := cluster.representative.category
      impact_score := cluster.representative.impact_score
      title := cluster.representative.title
      summary := "Error generating summary: " ++ e
      impact_reason := cluster.representative.impact_reason
      sources := memberSources cluster.members
      raw_ids := memberRawIds cluster.members }

/-! ## Concrete entities for instantiating the theorems -/

/-- A concrete raw item. -/
def sampleRaw : RawNewsItem :=
  { id := "item-1", title := "GPT-5 released", url := some "https://news.example/a",
    source := "feed", published_at := none, content := "body text" }

/-- A concrete classified item. -/
def sampleClassified : ClassifiedNewsItem :=
  { toRawNewsItem := sampleRaw, category := "AI Models",
    classification_confidence := 9/10, classification_method := "zero-shot" }

/-- A concrete scored item with a chosen id, url and impact score. -/
def mkScored (i : String) (u : Option String) (score : ℤ) : ScoredNewsItem :=
  { id := i, title := "T " ++ i, url := u, source := "feed",
    published_at := none, content := "body",
    category := "AI Models", classification_confidence := 9/10,
    classification_method := "zero-shot",
    impact_score := score, impact_reason := "reason " ++ i,
    impact_dimensions := ["industry"] }

/-- A concrete two-cluster state (clusters with centroid embeddings `1` and
`1` over `E = ℚ`), used to exercise the tie-break. -/
def wState : List ClusteredItem × List ℚ :=
  ([{ cluster_id := "c0", representative := mkScored "a" none 2,
      members := [mkScored "a" none 2] },
    { cluster_id := "c1", representative := mkScored "b" none 2,
      members := [mkScored "b" none 2] }],
   [1, 1])

/-- A concrete similarity function over `E = ℚ` (product), standing in for
cosine similarity in witnesses. -/
def wSim (a b : ℚ) : ℚ := a * b

/-- A concrete uuid supply. -/
def wUuid (n : Nat) : String := "uuid-" ++ toString n

/-! ## Helper lemmas -/

theorem getD_append_self {α : Type} (l : List α) (x d : α) :
    (l ++ [x]).getD l.length d = x := by
  rw [List.getD_append_right _ _ _ _ (le_refl _)]
  simp

theorem getD_set_self {α : Type} (l : List α) (j : Nat) (a d : α)
    (h : j < l.length) : (l.set j a).getD j d = a := by
  rw [List.getD_eq_getElem _ _ (by simpa using h), List.getElem_set_self]

/-- Scan invariant of `argmaxAux`: if `best` is the first maximum of the
already-scanned block `pre`, the scan result is the first maximum of the whole
list. -/
theorem argmaxAux_spec (xs : List ℚ) : ∀ (pre : List ℚ) (best : Nat),
    best < pre.length →
    (∀ k < pre.length, pre.getD k 0 ≤ pre.getD best 0) →
    (∀ k < best, pre.getD k 0 < pre.getD best 0) →
    argmaxAux xs pre.length best (pre.getD best 0) < (pre ++ xs).length ∧
    (∀ k < (pre ++ xs).length, (pre ++ xs).getD k 0 ≤
      (pre ++ xs).getD (argmaxAux xs pre.length best (pre.getD best 0)) 0) ∧
    (∀ k < argmaxAux xs pre.length best (pre.getD best 0),
      (pre ++ xs).getD k 0 <
      (pre ++ xs).getD (argmaxAux xs pre.length best (pre.getD best 0)) 0) := by
  induction xs with
  | nil =>
    intro pre best hbest hmax hfirst
    simp only [argmaxAux, List.append_nil]
    exact ⟨hbest, hmax, hfirst⟩
  | cons x xs ih =>
    intro pre best hbest hmax hfirst
    rw [List.append_cons]
    have hlen : (pre ++ [x]).length = pre.length + 1 := by simp
    have hgdx : (pre ++ [x]).getD pre.length 0 = x := getD_append_self pre x 0
    by_cases hx : pre.getD best 0 < x
    · have hcall : argmaxAux (x :: xs) pre.length best (pre.getD best 0) =
          argmaxAux xs (pre ++ [x]).length pre.length ((pre ++ [x]).getD pre.length 0) := by
        rw [hlen, hgdx]
        simp only [argmaxAux, if_pos hx]
      rw [hcall]
      refine ih (pre ++ [x]) pre.length (by simp) ?_ ?_
      · intro k hk
        rw [hgdx]
        rcases Nat.lt_succ_iff_lt_or_eq.mp (hlen ▸ hk) with hk' | hk'
        · rw [List.getD_append _ _ _ _ hk']
          exact le_of_lt (lt_of_le_of_lt (hmax k hk') hx)
        · rw [hk', hgdx]
      · intro k hk
        rw [hgdx, List.getD_append _ _ _ _ hk]
        exact lt_of_le_of_lt (hmax k hk) hx
    · have hgdb : (pre ++ [x]).getD best 0 = pre.getD best 0 :=
        List.getD_append _ _ _ _ hbest
      have hcall : argmaxAux (x :: xs) pre.length best (pre.getD best 0) =
          argmaxAux xs (pre ++ [x]).length best ((pre ++ [x]).getD best 0) := by
        rw [hlen, hgdb]
        simp only [argmaxAux, if_neg hx]
      rw [hcall]
      refine ih (pre ++ [x]) best (by simpa [hlen] using Nat.lt_succ_of_lt hbest) ?_ ?_
      · intro k hk
        rw [hgdb]
        rcases Nat.lt_succ_iff_lt_or_eq.mp (hlen ▸ hk) with hk' | hk'
        · rw [List.getD_append _ _ _ _ hk']
          exact hmax k hk'
        · rw [hk', hgdx]
          exact not_lt.mp hx
      · intro k hk
        rw [hgdb, List.getD_append _ _ _ _ (hk.trans hbest)]
        exact lt_of_lt_of_le (hfirst k hk) (le_of_eq rfl)

/-- `argmax` of a nonempty list is in range, attains the maximum, and every
earlier entry is strictly below it (first-occurrence semantics of
`np.argmax`). -/
theorem argmax_spec (l : List ℚ) (h : l ≠ []) :
    argmax l < l.length ∧
    (∀ k < l.length, l.getD k 0 ≤ l.getD (argmax l) 0) ∧
    (∀ k < argmax l, l.getD k 0 < l.getD (argmax l) 0) := by
  match l with
  | x :: xs =>
    have h0 : ∀ k < ([x] : List ℚ).length, ([x] : List ℚ).getD k 0 ≤ ([x] : List ℚ).getD 0 0 := by
      intro k hk
      have hk1 : k = 0 := Nat.lt_one_iff.mp (by simpa using hk)
      subst hk1
      exact le_refl _
    have := argmaxAux_spec xs [x] 0 (by simp) h0 (by simp)
    simpa [argmax] using this

/-- The first index attaining the maximum is unique, so it is `argmax`. -/
theorem argmax_eq_of_first_max (l : List ℚ) (j : Nat) (hj : j < l.length)
    (hmax : ∀ k < l.length, l.getD k 0 ≤ l.getD j 0)
    (hfirst : ∀ k < j, l.getD k 0 < l.getD j 0) : argmax l = j := by
  have hne : l ≠ [] := by
    intro h
    rw [h] at hj
    simp at hj
  obtain ⟨h1, h2, h3⟩ := argmax_spec l hne
  rcases lt_trichotomy (argmax l) j with h | h | h
  · exact absurd (h2 j hj) (not_le.mpr (hfirst _ h))
  · exact h
  · exact absurd (hmax _ h1) (not_le.mpr (h3 _ h))

/-! ## Claim theorems -/

/-- **C1**: in `cluster_items`, when an item's similarity to several existing
centroids ties for the maximum (index `j` is the earliest index attaining the
maximal similarity) and that maximum clears the threshold, the step appends
the item to cluster `j` — the earliest-created cluster — and creates no new
cluster. -/
theorem cluster_items_tiebreak_earliest {E : Type} [Inhabited E]
    (sim : E → E → ℚ) (θ : ℚ) (uuid : Nat → String)
    (st : List ClusteredItem × List E) (item : ScoredNewsItem) (e : E)
    (hne : st.1 ≠ []) (j : Nat) (hj : j < st.2.length)
    (hmax : ∀ k < st.2.length,
      (simRow sim e st.2).getD k 0 ≤ (simRow sim e st.2).getD j 0)
    (hfirst : ∀ k < j,
      (simRow sim e st.2).getD k 0 < (simRow sim e st.2).getD j 0)
    (hθ : θ ≤ (simRow sim e st.2).getD j 0) :
    (clusterStep sim θ uuid st item e).1 =
      st.1.set j (joinedCluster item (st.1.getD j default)) ∧
    (clusterStep sim θ uuid st item e).1.length = st.1.length := by
  have hrow : (simRow sim e st.2).length = st.2.length := by simp [simRow]
  have hargmax : argmax (simRow sim e st.2) = j :=
    argmax_eq_of_first_max _ j (by rwa [hrow]) (fun k hk => hmax k (by rwa [hrow] at hk)) hfirst
  have hempty : st.1.isEmpty = false := by simpa [List.isEmpty_iff] using hne
  have key : (clusterStep sim θ uuid st item e).1 =
      st.1.set j (joinedCluster item (st.1.getD j default)) := by
    rw [clusterStep]
    rw [if_neg (by simp [hempty])]
    simp only [hargmax]
    rw [if_pos hθ]
  exact ⟨key, by rw [key, List.length_set]⟩

/-- **C2**: when an item joins an existing cluster (the threshold is met at
the argmax index `j`), the item becomes the representative and the centroid is
replaced by the item's embedding exactly when the item's `impact_score`
strictly exceeds the current representative's; otherwise both the
representative and the centroid are unchanged.  In both cases the item is
appended to the members. -/
theorem cluster_items_promotion {E : Type} [Inhabited E]
    (sim : E → E → ℚ) (θ : ℚ) (uuid : Nat → String)
    (st : List ClusteredItem × List E) (item : ScoredNewsItem) (e : E)
    (hne : st.1 ≠ []) (hlen : st.1.length = st.2.length)
    (hθ : θ ≤ (simRow sim e st.2).getD (argmax (simRow sim e st.2)) 0) :
    ((st.1.getD (argmax (simRow sim e st.2)) default).representative.impact_score <
        item.impact_score →
      ((clusterStep sim θ uuid st item e).1.getD (argmax (simRow sim e st.2))
          default).representative = item ∧
      (clusterStep sim θ uuid st item e).2.getD (argmax (simRow sim e st.2)) default = e) ∧
    (¬ (st.1.getD (argmax (simRow sim e st.2)) default).representative.impact_score <
        item.impact_score →
      ((clusterStep sim θ uuid st item e).1.getD (argmax (simRow sim e st.2))
          default).representative =
        (st.1.getD (argmax (simRow sim e st.2)) default).representative ∧
      (clusterStep sim θ uuid st item e).2.getD (argmax (simRow sim e st.2)) default =
        st.2.getD (argmax (simRow sim e st.2)) default) ∧
    ((clusterStep sim θ uuid st item e).1.getD (argmax (simRow sim e st.2))
        default).members =
      (st.1.getD (argmax (simRow sim e st.2)) default).members ++ [item] := by
  have hne2 : st.2 ≠ [] := by
    intro h
    rw [h] at hlen
    simp [List.length_eq_zero] at hlen
    exact hne hlen
  have hrowne : simRow sim e st.2 ≠ [] := by simp [simRow, hne2]
  have hrow : (simRow sim e st.2).length = st.2.length := by simp [simRow]
  have hj2 : argmax (simRow sim e st.2) < st.2.length := by
    rw [← hrow]
    exact (argmax_spec _ hrowne).1
  have hj1 : argmax (simRow sim e st.2) < st.1.length := by rwa [hlen]
  have hempty : st.1.isEmpty = false := by simpa [List.isEmpty_iff] using hne
  have key : clusterStep sim θ uuid st item e =
      (st.1.set (argmax (simRow sim e st.2))
        (joinedCluster item (st.1.getD (argmax (simRow sim e st.2)) default)),
       st.2.set (argmax (simRow sim e st.2))
        (joinedCentroid item e (st.1.getD (argmax (simRow sim e st.2)) default)
          (st.2.getD (argmax (simRow sim e st.2)) default))) := by
    rw [clusterStep]
    rw [if_neg (by simp [hempty])]
    simp only []
    rw [if_pos hθ]
  rw [key]
  simp only [getD_set_self _ _ _ _ hj1, getD_set_self _ _ _ _ hj2]
  refine ⟨fun hgt => ?_, fun hle => ?_, ?_⟩
  · rw [joinedCluster, joinedCentroid]
    simp only [if_pos hgt]
    exact ⟨trivial, trivial⟩
  · rw [joinedCluster, joinedCentroid]
    simp only [if_neg hle]
    exact ⟨trivial, trivial⟩
  · rw [joinedCluster]
    by_cases hgt :
        (st.1.getD (argmax (simRow sim e st.2)) default).representative.impact_score <
          item.impact_score
    · simp only [if_pos hgt]
    · simp only [if_neg hgt]

/-- One clustering step preserves `representative ∈ members`,
`1 ≤ members.length` for every cluster, and the clusters/centroids length
equality. -/
theorem clusterStep_invariant {E : Type} [Inhabited E]
    (sim : E → E → ℚ) (θ : ℚ) (uuid : Nat → String)
    (st : List ClusteredItem × List E) (item : ScoredNewsItem) (e : E)
    (h1 : ∀ c ∈ st.1, c.representative ∈ c.members ∧ 1 ≤ c.members.length)
    (h2 : st.1.length = st.2.length) :
    (∀ c ∈ (clusterStep sim θ uuid st item e).1,
      c.representative ∈ c.members ∧ 1 ≤ c.members.length) ∧
    (clusterStep sim θ uuid st item e).1.length =
      (clusterStep sim θ uuid st item e).2.length := by
  have hfresh : ∀ cid, (newCluster cid item).representative ∈ (newCluster cid item).members ∧
      1 ≤ (newCluster cid item).members.length := by
    intro cid
    exact ⟨List.mem_singleton_self _, by simp [newCluster]⟩
  have happend : (∀ c ∈ st.1 ++ [newCluster (uuid st.1.length) item],
      c.representative ∈ c.members ∧ 1 ≤ c.members.length) ∧
      (st.1 ++ [newCluster (uuid st.1.length) item]).length = (st.2 ++ [e]).length := by
    constructor
    · intro c hc
      rcases List.mem_append.mp hc with hc | hc
      · exact h1 c hc
      · rw [List.mem_singleton] at hc
        subst hc
        exact hfresh _
    · simp [h2]
  by_cases hemp : st.1.isEmpty
  · rw [clusterStep, if_pos hemp]
    exact happend
  · rw [clusterStep, if_neg hemp]
    simp only []
    by_cases hθ' : θ ≤ (simRow sim e st.2).getD (argmax (simRow sim e st.2)) 0
    · rw [if_pos hθ']
      have hne : st.1 ≠ [] := by simpa [List.isEmpty_iff] using hemp
      have hne2 : st.2 ≠ [] := by
        intro h
        rw [h] at h2
        simp [List.length_eq_zero] at h2
        exact hne h2
      have hrowne : simRow sim e st.2 ≠ [] := by simp [simRow, hne2]
      have hj2 : argmax (simRow sim e st.2) < st.2.length := by
        have := (argmax_spec _ hrowne).1
        simpa [simRow] using this
      have hj1 : argmax (simRow sim e st.2) < st.1.length := by rwa [h2]
      constructor
      · intro c hc
        rcases List.mem_or_eq_of_mem_set hc with hc | hc
        · exact h1 c hc
        · subst hc
          have hmem : st.1.getD (argmax (simRow sim e st.2)) default ∈ st.1 := by
            rw [List.getD_eq_getElem _ _ hj1]
            exact List.getElem_mem _
          obtain ⟨hr, _⟩ := h1 _ hmem
          rw [joinedCluster]
          by_cases hgt : (st.1.getD (argmax (simRow sim e st.2))
              default).representative.impact_score < item.impact_score
          · simp only [if_pos hgt]
            exact ⟨List.mem_append.mpr (Or.inr (List.mem_singleton_self _)), by simp⟩
          · simp only [if_neg hgt]
            exact ⟨List.mem_append.mpr (Or.inl hr), by simp⟩
      · simp [h2]
    · rw [if_neg hθ']
      exact happend

/-- The invariant of `clusterStep_invariant` holds at every state the
clustering pass reaches. -/
theorem clusterRun_invariant {E : Type} [Inhabited E]
    (sim : E → E → ℚ) (θ : ℚ) (uuid : Nat → String)
    (pairs : List (ScoredNewsItem × E)) (st : List ClusteredItem × List E)
    (h1 : ∀ c ∈ st.1, c.representative ∈ c.members ∧ 1 ≤ c.members.length)
    (h2 : st.1.length = st.2.length) :
    (∀ c ∈ (clusterRun sim θ uuid st pairs).1,
      c.representative ∈ c.members ∧ 1 ≤ c.members.length) ∧
    (clusterRun sim θ uuid st pairs).1.length =
      (clusterRun sim θ uuid st pairs).2.length := by
  induction pairs generalizing st with
  | nil => exact ⟨h1, h2⟩
  | cons p ps ih =>
    have hstep := clusterStep_invariant sim θ uuid st p.1 p.2 h1 h2
    exact ih (clusterStep sim θ uuid st p.1 p.2) hstep.1 hstep.2

/-- **C3**: every cluster created or updated by `cluster_items` satisfies
`representative ∈ members` and `len(members) ≥ 1` — at every step of the pass
(any state reached from an invariant-satisfying state, in particular from any
prefix of the input) and in the returned list. -/
theorem cluster_items_rep_in_members {E : Type} [Inhabited E]
    (sim : E → E → ℚ) (θ : ℚ) (uuid : Nat → String)
    (st : List ClusteredItem × List E) (pairs : List (ScoredNewsItem × E))
    (items : List ScoredNewsItem) (embeds : List E)
    (h1 : ∀ c ∈ st.1, c.representative ∈ c.members ∧ 1 ≤ c.members.length)
    (h2 : st.1.length = st.2.length) :
    (∀ c ∈ (clusterRun sim θ uuid st pairs).1,
      c.representative ∈ c.members ∧ 1 ≤ c.members.length) ∧
    (∀ c ∈ cluster_items sim θ uuid items embeds,
      c.representative ∈ c.members ∧ 1 ≤ c.members.length) := by
  constructor
  · exact (clusterRun_invariant sim θ uuid pairs st h1 h2).1
  · rw [cluster_items]
    exact (clusterRun_invariant sim θ uuid (items.zip embeds) ([], [])
      (by simp) rfl).1

/-- **C4** counterexample: with a successful LLM response reporting
`confidence = 2`, the classifier stores `classification_confidence = 2`,
outside `[0,1]` — the code passes the reported value through without
clamping. -/
theorem classify_confidence_counterexample :
    (classify_single_item none (.ok ⟨some "AI Models", some 2⟩)
      sampleRaw).classification_confidence = 2 ∧
    ¬ (classify_single_item none (.ok ⟨some "AI Models", some 2⟩)
      sampleRaw).classification_confidence ≤ 1 := by
  constructor
  · rfl
  · norm_num [classify_single_item, CATEGORIES]

/-- **C4** (amended): the classification confidence lies in `[0,1]` on the
failure-fallback path (0.0) and the absent-key default (0.5), and on the
cache-hit and successful-response paths provided the cached entity's
confidence and the reported confidence value lie in `[0,1]`; the reported
value is passed through without clamping, both zero-shot and few-shot. -/
theorem classify_confidence_in_unit_interval
    (cache_hit : Option ClassifiedNewsItem)
    (response : Except String ClassifyResponse) (item : RawNewsItem)
    (hcache : ∀ c, cache_hit = some c →
      0 ≤ c.classification_confidence ∧ c.classification_confidence ≤ 1)
    (hresp : ∀ r q, response = .ok r → r.confidence = some q → 0 ≤ q ∧ q ≤ 1) :
    (0 ≤ (classify_single_item cache_hit response item).classification_confidence ∧
      (classify_single_item cache_hit response item).classification_confidence ≤ 1) ∧
    (0 ≤ (classify_single_item_few_shot response item).classification_confidence ∧
      (classify_single_item_few_shot response item).classification_confidence ≤ 1) := by
  constructor
  · cases cache_hit with
    | some c => simpa [classify_single_item] using hcache c rfl
    | none =>
      cases response with
      | error e => norm_num [classify_single_item]
      | ok r =>
        cases hq : r.confidence with
        | none => norm_num [classify_single_item, hq]
        | some q => simpa [classify_single_item, hq] using hresp r q rfl hq
  · cases response with
    | error e => norm_num [classify_single_item_few_shot]
    | ok r =>
      cases hq : r.confidence with
      | none => norm_num [classify_single_item_few_shot, hq]
      | some q => simpa [classify_single_item_few_shot, hq] using hresp r q rfl hq

theorem classify_confidence_in_unit_interval_witness :
    (0 ≤ (classify_single_item none (.ok ⟨some "AI Models", some (3/4)⟩)
        sampleRaw).classification_confidence ∧
      (classify_single_item none (.ok ⟨some "AI Models", some (3/4)⟩)
        sampleRaw).classification_confidence ≤ 1) ∧
    (0 ≤ (classify_single_item_few_shot (.ok ⟨some "AI Models", some (3/4)⟩)
        sampleRaw).classification_confidence ∧
      (classify_single_item_few_shot (.ok ⟨some "AI Models", some (3/4)⟩)
        sampleRaw).classification_confidence ≤ 1) :=
  classify_confidence_in_unit_interval none (.ok ⟨some "AI Models", some (3/4)⟩)
    sampleRaw (fun c h => nomatch h)
    (by
      intro r q hr hq
      obtain rfl : r = ⟨some "AI Models", some (3/4)⟩ := (Except.ok.injEq _ _).mp hr.symm
      obtain rfl : q = 3/4 := (Option.some.injEq _ _).mp hq.symm
      norm_num)

/-- **C5**: on a successful enrichment response the scorer clamps the raw
integer score into `[1,5]` instead of failing: the stored score is always in
range, a raw `7` is stored as `5`, a raw `-1` is stored as `1`, and an
in-range raw score is stored unchanged — for every integer raw score. -/
theorem score_clamps_into_range (item : ClassifiedNewsItem)
    (r : ScoreResponse) (n : ℤ) (hn : r.impact_score = some n) :
    (1 ≤ (score_single_item none (.ok r) item).impact_score ∧
      (score_single_item none (.ok r) item).impact_score ≤ 5) ∧
    (n = 7 → (score_single_item none (.ok r) item).impact_score = 5) ∧
    (n = -1 → (score_single_item none (.ok r) item).impact_score = 1) ∧
    (1 ≤ n → n ≤ 5 → (score_single_item none (.ok r) item).impact_score = n) := by
  simp only [score_single_item, hn, Option.getD_some]
  refine ⟨⟨le_max_left _ _, max_le (by norm_num) (min_le_left _ _)⟩, ?_, ?_, ?_⟩
  · rintro rfl
    norm_num
  · rintro rfl
    norm_num
  · intro h1 h5
    rw [min_eq_right h5, max_eq_right h1]

theorem score_clamps_into_range_witness :
    ((1 ≤ (score_single_item none (.ok ⟨some 7, none, none⟩)
        sampleClassified).impact_score ∧
      (score_single_item none (.ok ⟨some 7, none, none⟩)
        sampleClassified).impact_score ≤ 5) ∧
    ((7 : ℤ) = 7 → (score_single_item none (.ok ⟨some 7, none, none⟩)
        sampleClassified).impact_score = 5) ∧
    ((7 : ℤ) = -1 → (score_single_item none (.ok ⟨some 7, none, none⟩)
        sampleClassified).impact_score = 1) ∧
    (1 ≤ (7 : ℤ) → (7 : ℤ) ≤ 5 → (score_single_item none (.ok ⟨some 7, none, none⟩)
        sampleClassified).impact_score = 7)) ∧
    (score_single_item none (.ok ⟨some (-1), none, none⟩)
        sampleClassified).impact_score = 1 :=
  ⟨score_clamps_into_range sampleClassified ⟨some 7, none, none⟩ 7 rfl,
   (score_clamps_into_range sampleClassified ⟨some (-1), none, none⟩ (-1) rfl).2.2.1 rfl⟩

/-! ## Mapper lemmas -/

/-- The slot-update fold preserves the slot count. -/
theorem runTasks_foldl_length {α β : Type} (f : α → β) (xs : List α)
    (order : List Nat) (slots : List (Option β)) :
    (order.foldl
      (fun s i =>
        match xs[i]? with
        | some x => s.set i (some (f x))
        | none => s) slots).length = slots.length := by
  induction order generalizing slots with
  | nil => rfl
  | cons i os ih =>
    cases hx : xs[i]? with
    | some x =>
      simp only [List.foldl_cons, hx]
      rw [ih]
      exact List.length_set _ _ _
    | none => simp only [List.foldl_cons, hx, ih]

/-- Each slot of the fold: slot `k` holds `f` of input `k` once task `k` has
completed, and its initial content otherwise. -/
theorem runTasks_foldl_getElem {α β : Type} (f : α → β) (xs : List α)
    (order : List Nat) (slots : List (Option β))
    (hlen : slots.length = xs.length) (k : Nat) :
    (order.foldl
      (fun s i =>
        match xs[i]? with
        | some x => s.set i (some (f x))
        | none => s) slots)[k]? =
      if k ∈ order ∧ k < xs.length then (xs[k]?.map fun x => some (f x))
      else slots[k]? := by
  induction order generalizing slots with
  | nil => simp
  | cons i os ih =>
    by_cases hki : k = i
    · subst hki
      by_cases hk : k < xs.length
      · have hx : xs[k]? = some xs[k] := List.getElem?_eq_getElem hk
        simp only [List.foldl_cons, hx]
        rw [ih _ (by rw [List.length_set, hlen])]
        by_cases hmem : k ∈ os
        · simp [hmem, hk, hx]
        · simp only [hmem, hk, and_true, and_false, if_false, List.mem_cons,
            true_or, if_true, hx, Option.map_some]
          exact List.getElem?_set_eq_of_lt _ (by rw [hlen]; exact hk)
      · have hx : xs[k]? = none := List.getElem?_eq_none (by omega)
        simp only [List.foldl_cons, hx]
        rw [ih _ hlen]
        simp [hk]
    · cases hx : xs[i]? with
      | some x =>
        simp only [List.foldl_cons, hx]
        rw [ih _ (by rw [List.length_set, hlen])]
        have hset : (slots.set i (some (f x)))[k]? = slots[k]? := by
          rw [List.getElem?_set_ne (fun h => hki h.symm)]
        rw [hset]
        by_cases hmem : k ∈ os
        · simp [hmem]
        · have : ¬ k ∈ i :: os := by
            simp [List.mem_cons, hki, hmem]
          simp [hmem, this]
      | none =>
        simp only [List.foldl_cons, hx]
        rw [ih _ hlen]
        by_cases hmem : k ∈ os
        · simp [hmem]
        · have : ¬ k ∈ i :: os := by
            simp [List.mem_cons, hki, hmem]
          simp [hmem, this]

/-- When the completion order covers exactly the task indices, the gathered
output is the input list mapped through the transform, in input order. -/
theorem runTasks_eq_map {α β : Type} (f : α → β) (xs : List α)
    (order : List Nat) (horder : ∀ k, k ∈ order ↔ k < xs.length) :
    runTasks f xs order = xs.map (fun x => some (f x)) := by
  have hlen0 : (xs.map fun _ => (none : Option β)).length = xs.length := by simp
  apply List.ext_getElem?
  intro k
  rw [runTasks, runTasks_foldl_getElem f xs order _ hlen0 k]
  by_cases hk : k < xs.length
  · rw [if_pos ⟨(horder k).mpr hk, hk⟩]
    have hx : xs[k]? = some xs[k] := List.getElem?_eq_getElem hk
    simp [hx, List.getElem?_map]
  · rw [if_neg (by intro h; exact hk h.2)]
    rw [List.getElem?_map]
    rw [List.getElem?_eq_none (by omega), List.getElem?_eq_none (by simpa using Nat.le_of_not_lt hk)]
    rfl

/-- **C6**: when the enrichment call for an item fails (cache miss followed by
an exception), the scorer returns a `ScoredNewsItem` with `impact_score = 3`,
`impact_reason = "Error during scoring"` and empty `impact_dimensions` on top
of the input item's fields, and the failure never propagates to the batch: the
stage still yields one result per input, the failing item's slot holding
exactly the fallback. -/
theorem score_error_never_propagates
    (items : List ClassifiedNewsItem)
    (scache : ClassifiedNewsItem → Option ScoredNewsItem)
    (sresp : ClassifiedNewsItem → Except String ScoreResponse)
    (order : List Nat) (i : Nat) (item : ClassifiedNewsItem) (e : String)
    (hi : items[i]? = some item) (hcache : scache item = none)
    (hresp : sresp item = .error e)
    (horder : ∀ k, k ∈ order ↔ k < items.length) :
    score_single_item (scache item) (sresp item) item =
      { toClassifiedNewsItem := item, impact_score := 3, impact_reason := "Error during scoring", impact_dimensions := [] } ∧
    (runTasks (fun it => score_single_item (scache it) (sresp it) it)
      items order).length = items.length ∧
    (runTasks (fun it => score_single_item (scache it) (sresp it) it)
      items order)[i]? =
      some (some { toClassifiedNewsItem := item, impact_score := 3, impact_reason := "Error during scoring", impact_dimensions := [] }) := by
  have hfall : score_single_item (scache item) (sresp item) item =
      { toClassifiedNewsItem := item, impact_score := 3, impact_reason := "Error during scoring", impact_dimensions := [] } := by
    rw [hcache, hresp]
    rfl
  refine ⟨hfall, ?_, ?_⟩
  · rw [runTasks_eq_map _ _ _ horder]
    simp
  · rw [runTasks_eq_map _ _ _ horder, List.getElem?_map, hi]
    simp [hfall]

/-- **C9**: each concurrent stage (classifier, scorer, summarizer) collects
its per-item tasks with `asyncio.gather`, so for every input sequence and
every completion order covering the tasks (whatever concurrency cap the
semaphore enforces), the output is exactly the input list mapped through the
per-item transform: `n` results, result `i` the enrichment of input `i`. -/
theorem stage_preserves_input_order
    (rawItems : List RawNewsItem) (classifiedItems : List ClassifiedNewsItem)
    (clusters : List ClusteredItem)
    (ccache : RawNewsItem → Option ClassifiedNewsItem)
    (cresp : RawNewsItem → Except String ClassifyResponse)
    (scache : ClassifiedNewsItem → Option ScoredNewsItem)
    (sresp : ClassifiedNewsItem → Except String ScoreResponse)
    (mresp : ClusteredItem → Except String SummaryResponse)
    (order1 order2 order3 : List Nat)
    (h1 : ∀ k, k ∈ order1 ↔ k < rawItems.length)
    (h2 : ∀ k, k ∈ order2 ↔ k < classifiedItems.length)
    (h3 : ∀ k, k ∈ order3 ↔ k < clusters.length) :
    runTasks (fun it => classify_single_item (ccache it) (cresp it) it)
        rawItems order1 =
      rawItems.map (fun it => some (classify_single_item (ccache it) (cresp it) it)) ∧
    runTasks (fun it => score_single_item (scache it) (sresp it) it)
        classifiedItems order2 =
      classifiedItems.map (fun it => some (score_single_item (scache it) (sresp it) it)) ∧
    runTasks (fun cl => summarize_single_cluster cl (mresp cl)) clusters order3 =
      clusters.map (fun cl => some (summarize_single_cluster cl (mresp cl))) :=
  ⟨runTasks_eq_map _ _ _ h1, runTasks_eq_map _ _ _ h2, runTasks_eq_map _ _ _ h3⟩

/-! ## Cache lemmas -/

theorem decodeOptStr_encodeOptStr (o : Option String) :
    decodeOptStr (encodeOptStr o) = some o := by
  cases o <;> rfl

theorem decodeStrList_map_str (l : List String) :
    decodeStrList (l.map Json.str) = some l := by
  induction l with
  | nil => rfl
  | cons x xs ih => simp [decodeStrList, ih, decodeStr]

/-- pydantic round-trip for classified items: the record `save_classified`
writes is accepted by `get_classified`'s entity construction and yields the
original entity. -/
theorem decodeClassified_encodeClassified (it : ClassifiedNewsItem) :
    decodeClassified (encodeClassified it) = some it := by
  simp [decodeClassified, encodeClassified, jLookup, decodeStr, decodeNum,
    decodeOptStr_encodeOptStr]

/-- pydantic round-trip for scored items. -/
theorem decodeScored_encodeScored (it : ScoredNewsItem) :
    decodeScored (encodeScored it) = some it := by
  simp [decodeScored, encodeScored, jLookup, decodeStr, decodeNum,
    decodeOptStr_encodeOptStr, decodeStrList_map_str, Rat.den_intCast,
    Rat.num_intCast]

/-- **C7**: a cache `get` on a key that was never stored returns `None`, and a
`get` whose stored record is corrupt (unparseable JSON) or unreadable (JSON
the entity constructor rejects) also returns `None` instead of raising — for
both operations, every item id and every date. -/
theorem cache_get_absent_on_miss_or_corrupt
    (store : CacheStore) (item_id d : String) :
    (store (cacheKey item_id "classify" d) = none →
      get_classified store item_id d = none) ∧
    (store (cacheKey item_id "classify" d) = some .corrupt →
      get_classified store item_id d = none) ∧
    (∀ j, store (cacheKey item_id "classify" d) = some (.json j) →
      decodeClassified j = none → get_classified store item_id d = none) ∧
    (store (cacheKey item_id "score" d) = none →
      get_scored store item_id d = none) ∧
    (store (cacheKey item_id "score" d) = some .corrupt →
      get_scored store item_id d = none) ∧
    (∀ j, store (cacheKey item_id "score" d) = some (.json j) →
      decodeScored j = none → get_scored store item_id d = none) := by
  refine ⟨fun h => ?_, fun h => ?_, fun j h hj => ?_, fun h => ?_, fun h => ?_,
    fun j h hj => ?_⟩
  · simp [get_classified, h]
  · simp [get_classified, h]
  · simp [get_classified, h, hj]
  · simp [get_scored, h]
  · simp [get_scored, h]
  · simp [get_scored, h, hj]

theorem cache_get_absent_on_miss_or_corrupt_witness :
    get_classified (fun _ => none) "item-1" "2025-01-01" = none ∧
    get_classified (fun _ => some .corrupt) "item-1" "2025-01-01" = none ∧
    get_classified (fun _ => some (.json .null)) "item-1" "2025-01-01" = none ∧
    get_scored (fun _ => none) "item-1" "2025-01-01" = none ∧
    get_scored (fun _ => some .corrupt) "item-1" "2025-01-01" = none ∧
    get_scored (fun _ => some (.json .null)) "item-1" "2025-01-01" = none :=
  ⟨(cache_get_absent_on_miss_or_corrupt (fun _ => none) "item-1" "2025-01-01").1 rfl,
   (cache_get_absent_on_miss_or_corrupt (fun _ => some .corrupt) "item-1"
     "2025-01-01").2.1 rfl,
   (cache_get_absent_on_miss_or_corrupt (fun _ => some (.json .null)) "item-1"
     "2025-01-01").2.2.1 .null rfl rfl,
   (cache_get_absent_on_miss_or_corrupt (fun _ => none) "item-1" "2025-01-01").2.2.2.1 rfl,
   (cache_get_absent_on_miss_or_corrupt (fun _ => some .corrupt) "item-1"
     "2025-01-01").2.2.2.2.1 rfl,
   (cache_get_absent_on_miss_or_corrupt (fun _ => some (.json .null)) "item-1"
     "2025-01-01").2.2.2.2.2 .null rfl rfl⟩

/-- **C8**: saving an entity and then getting the same
`(item id, operation, date)` key returns an entity equal to the one saved,
for both operations, assuming the file write succeeds (`write_ok = true`; the
read path is the modelled `get`). -/
theorem cache_roundtrip (store : CacheStore) (cit : ClassifiedNewsItem)
    (sit : ScoredNewsItem) (d : String) :
    get_classified (save_classified store cit d true) cit.id d = some cit ∧
    get_scored (save_scored store sit d true) sit.id d = some sit := by
  constructor
  · simp [get_classified, save_classified, decodeClassified_encodeClassified]
  · simp [get_scored, save_scored, decodeScored_encodeScored]

/-- **C10**: for every cluster and on both the success and the
enrichment-failure path, the produced `SummarizedCluster` has `sources` equal
to the member URLs with duplicates removed (no duplicates, same URLs) and
`raw_ids` equal to the member ids in original member order, hence of length
equal to the member count. -/
theorem summarize_sources_dedup_and_raw_ids (cluster : ClusteredItem)
    (response : Except String SummaryResponse) :
    (summarize_single_cluster cluster response).sources.Nodup ∧
    (∀ u, u ∈ (summarize_single_cluster cluster response).sources ↔
      u ∈ cluster.members.filterMap (fun m => m.url)) ∧
    (summarize_single_cluster cluster response).raw_ids =
      cluster.members.map (fun m => m.id) ∧
    (summarize_single_cluster cluster response).raw_ids.length =
      cluster.members.length := by
  cases response with
  | ok r =>
    exact ⟨by simp [summarize_single_cluster, memberSources, List.nodup_dedup],
      fun u => by simp [summarize_single_cluster, memberSources],
      by simp [summarize_single_cluster, memberRawIds],
      by simp [summarize_single_cluster, memberRawIds]⟩
  | error e =>
    exact ⟨by simp [summarize_single_cluster, memberSources, List.nodup_dedup],
      fun u => by simp [summarize_single_cluster, memberSources],
      by simp [summarize_single_cluster, memberRawIds],
      by simp [summarize_single_cluster, memberRawIds]⟩

/-! ## Witnesses for the clustering and concurrency theorems -/

theorem cluster_items_tiebreak_earliest_witness :
    (clusterStep wSim (1/2 : ℚ) wUuid wState (mkScored "c" none 5) 1).1 =
      wState.1.set 0 (joinedCluster (mkScored "c" none 5) (wState.1.getD 0 default)) ∧
    (clusterStep wSim (1/2 : ℚ) wUuid wState (mkScored "c" none 5) 1).1.length =
      wState.1.length :=
  cluster_items_tiebreak_earliest wSim (1/2) wUuid wState (mkScored "c" none 5) 1
    (by simp [wState]) 0 (by simp [wState])
    (by
      intro k hk
      have hk2 : k < 2 := by simpa [wState] using hk
      interval_cases k <;> simp [simRow, wSim, wState])
    (fun k hk => absurd hk (Nat.not_lt_zero k))
    (by norm_num [simRow, wSim, wState])

theorem cluster_items_promotion_witness :
    ((clusterStep wSim (1/2 : ℚ) wUuid wState (mkScored "c" none 4) 1).1.getD
        (argmax (simRow wSim 1 wState.2)) default).representative =
      mkScored "c" none 4 ∧
    (clusterStep wSim (1/2 : ℚ) wUuid wState (mkScored "c" none 4) 1).2.getD
        (argmax (simRow wSim 1 wState.2)) default = 1 :=
  (cluster_items_promotion wSim (1/2) wUuid wState (mkScored "c" none 4) 1
    (by simp [wState]) (by simp [wState])
    (by norm_num [simRow, wSim, wState, argmax, argmaxAux])).1
    (by norm_num [wState, mkScored, argmax, argmaxAux, simRow, wSim])

theorem cluster_items_rep_in_members_witness :
    (∀ c ∈ (clusterRun wSim (1/2 : ℚ) wUuid ([], [])
        [(mkScored "a" none 2, (1 : ℚ)), (mkScored "b" none 4, 1)]).1,
      c.representative ∈ c.members ∧ 1 ≤ c.members.length) ∧
    (∀ c ∈ cluster_items wSim (1/2 : ℚ) wUuid
        [mkScored "a" none 2, mkScored "b" none 4] [(1 : ℚ), 1],
      c.representative ∈ c.members ∧ 1 ≤ c.members.length) :=
  cluster_items_rep_in_members wSim (1/2) wUuid ([], [])
    [(mkScored "a" none 2, 1), (mkScored "b" none 4, 1)]
    [mkScored "a" none 2, mkScored "b" none 4] [1, 1]
    (by intro c hc; exact absurd hc (List.not_mem_nil c)) rfl

theorem score_error_never_propagates_witness :
    score_single_item none (.error "boom") sampleClassified =
      { toClassifiedNewsItem := sampleClassified, impact_score := 3, impact_reason := "Error during scoring", impact_dimensions := [] } ∧
    (runTasks (fun it => score_single_item none (.error "boom") it)
      [sampleClassified] [0]).length = 1 ∧
    (runTasks (fun it => score_single_item none (.error "boom") it)
      [sampleClassified] [0])[0]? =
      some (some { toClassifiedNewsItem := sampleClassified, impact_score := 3, impact_reason := "Error during scoring", impact_dimensions := [] }) :=
  score_error_never_propagates [sampleClassified] (fun _ => none)
    (fun _ => .error "boom") [0] 0 sampleClassified "boom" rfl rfl rfl
    (by intro k; simp [Nat.lt_one_iff])

theorem stage_preserves_input_order_witness :
    runTasks (fun it => classify_single_item none (.ok ⟨some "AI Models", some (3/4)⟩) it)
        [sampleRaw, sampleRaw] [1, 0] =
      [sampleRaw, sampleRaw].map
        (fun it => some (classify_single_item none (.ok ⟨some "AI Models", some (3/4)⟩) it)) ∧
    runTasks (fun it => score_single_item none (.ok ⟨some 4, none, some "big"⟩) it)
        [sampleClassified, sampleClassified] [1, 0] =
      [sampleClassified, sampleClassified].map
        (fun it => some (score_single_item none (.ok ⟨some 4, none, some "big"⟩) it)) ∧
    runTasks (fun cl => summarize_single_cluster cl (.error "down"))
        [newCluster "c0" (mkScored "a" none 2)] [0] =
      [newCluster "c0" (mkScored "a" none 2)].map
        (fun cl => some (summarize_single_cluster cl (.error "down"))) :=
  stage_preserves_input_order [sampleRaw, sampleRaw]
    [sampleClassified, sampleClassified] [newCluster "c0" (mkScored "a" none 2)]
    (fun _ => none) (fun _ => .ok ⟨some "AI Models", some (3/4)⟩)
    (fun _ => none) (fun _ => .ok ⟨some 4, none, some "big"⟩)
    (fun _ => .error "down") [1, 0] [1, 0] [0]
    (by intro k; simp [List.mem_cons]; omega)
    (by intro k; simp [List.mem_cons]; omega)
    (by intro k; simp [Nat.lt_one_iff])

end AINews
